import Mathlib

/-!
Verification of the BHD_Permits dashboard data pipeline.

Shallow embedding of `streamlit_app.py` (Fulton County building-permits
dashboard).  Tables are modelled as `List` of row structures; a missing
cell (pandas `NaN`) is `Option.none`.  Pandas primitives used by the
source (left merge, `to_datetime(…, errors="coerce")`, `astype(str)`,
string slicing, `groupby(…).size()`, boolean-mask filtering) are embedded
as executable Lean functions below, each next to the source line it
translates.
-/

/-- One row of `BuildingPermits2019_2024,csv` (the columns the program
reads).  Every cell may be missing (`none` = pandas `NaN`). -/
structure RawPermit where
  recordStatus : Option String      -- column "RECORD STATUS"
  recordStatusDate : Option String  -- column "RECORD STATUS DATE"
  recordType : Option String        -- column "RECORD TYPE"
  addrFullLine : Option String      -- column "ADDR FULL LINE#"
  description : Option String       -- column "DESCRIPTION"
  deriving DecidableEq, Repr

/-- One row of `StatusTable.csv`: maps a status code to a business label. -/
structure StatusRow where
  status : Option String       -- column "Status"
  finalStatus : Option String  -- column "FinalStatus"
  deriving DecidableEq, Repr

/-- One row of `RecordType.csv`: maps a record-type code to a simple type. -/
structure TypeRow where
  recordType : Option String  -- column "RECORD TYPE"
  simpleType : Option String  -- column "SimpleType"
  deriving DecidableEq, Repr

/-- Row shape after the first merge (line 36 of the source). -/
structure MergedStatus where
  recordStatus : Option String
  recordStatusDate : Option String
  recordType : Option String
  addrFullLine : Option String
  description : Option String
  finalStatus : Option String
  deriving DecidableEq, Repr

/-- Row shape after the second merge (line 37 of the source). -/
structure MergedPermit where
  recordStatus : Option String
  recordStatusDate : Option String
  recordType : Option String
  addrFullLine : Option String
  description : Option String
  finalStatus : Option String
  simpleType : Option String
  deriving DecidableEq, Repr

/-- Line 36: `records.merge(status, left_on="RECORD STATUS", right_on="Status",
how="left")`.  A left merge keeps every left row: rows with no key match get
`NaN` lookup fields; rows with several matches are duplicated once per match.
Pandas pairs `NaN` keys with `NaN` keys, which `Option` equality mirrors. -/
def merge_status (records : List RawPermit) (status : List StatusRow) :
    List MergedStatus :=
  records.flatMap fun r =>
    let ms := status.filter fun s => s.status == r.recordStatus
    if ms.isEmpty then
      [⟨r.recordStatus, r.recordStatusDate, r.recordType, r.addrFullLine,
        r.description, none⟩]
    else
      ms.map fun s =>
        ⟨r.recordStatus, r.recordStatusDate, r.recordType, r.addrFullLine,
         r.description, s.finalStatus⟩

/-- Line 37: `df.merge(types, on="RECORD TYPE", how="left")`. -/
def merge_types (df : List MergedStatus) (types : List TypeRow) :
    List MergedPermit :=
  df.flatMap fun m =>
    let ms := types.filter fun t => t.recordType == m.recordType
    if ms.isEmpty then
      [⟨m.recordStatus, m.recordStatusDate, m.recordType, m.addrFullLine,
        m.description, m.finalStatus, none⟩]
    else
      ms.map fun t =>
        ⟨m.recordStatus, m.recordStatusDate, m.recordType, m.addrFullLine,
         m.description, m.finalStatus, t.simpleType⟩

/-- A calendar date as produced by parsing with format `%m/%d/%Y`. -/
structure DateMDY where
  month : Nat
  day : Nat
  year : Nat
  deriving DecidableEq, Repr

/-- Gregorian leap-year rule, as used by `datetime` validation. -/
def isLeapYear (y : Nat) : Bool :=
  (y % 4 == 0 && y % 100 != 0) || (y % 400 == 0)

/-- Number of days in month `m` of year `y`. -/
def daysInMonth (m y : Nat) : Nat :=
  if m == 2 then (if isLeapYear y then 29 else 28)
  else if m == 4 || m == 6 || m == 9 || m == 11 then 30
  else 31

/-- Split a character list at every occurrence of `c` (the separators are
dropped; `n` separators yield `n+1` pieces, possibly empty). -/
def splitChar (c : Char) : List Char → List (List Char)
  | [] => [[]]
  | x :: xs =>
    let r := splitChar c xs
    if x == c then [] :: r
    else
      match r with
      | [] => [[x]]
      | h :: t => (x :: h) :: t

/-- Test that `cs` is a non-empty run of ASCII digits. -/
def charsAllDigits (cs : List Char) : Bool :=
  !cs.isEmpty && cs.all Char.isDigit

/-- Decimal value of a digit run. -/
def charsToNat (cs : List Char) : Nat :=
  cs.foldl (fun n c => n * 10 + (c.toNat - 48)) 0

/-- Lines 40: parsing one cell with `pd.to_datetime(…, format="%m/%d/%Y",
errors="coerce")`.  Following the CPython strptime patterns, `%m` and `%d`
accept one or two digits (value ranges 1–12 / 1–31, then real calendar
validation), `%Y` accepts exactly four digits, the two `/` must match
literally and the whole string must be consumed; any failure coerces to
`NaT` (`none`) instead of raising.  (The pandas `Timestamp` year range
1677–2262 is not modelled; the years in the data are well inside it.) -/
def parseDateMDY (s : String) : Option DateMDY :=
  match splitChar ('/') s.data with
  | [ms, ds, ys] =>
    if charsAllDigits ms && ms.length ≤ 2 &&
       charsAllDigits ds && ds.length ≤ 2 &&
       charsAllDigits ys && ys.length == 4 then
      let m := charsToNat ms
      let d := charsToNat ds
      let y := charsToNat ys
      if 1 ≤ m && m ≤ 12 && 1 ≤ d && d ≤ daysInMonth m y then
        some ⟨m, d, y⟩
      else none
    else none
  | _ => none

/-- Line 40 applied to a cell: `NaN` input stays `NaT`. -/
def to_datetime_coerce (s : Option String) : Option DateMDY :=
  s.bind parseDateMDY

/-- Pandas `astype(str)` on one cell: `NaN` becomes the literal text
`"nan"`, a string cell is unchanged. -/
def pyStr (s : Option String) : String :=
  match s with
  | none => "nan"
  | some v => v

/-- Python slice `[-5:]`: the last five characters (the whole string when
it is shorter than five). -/
def strSliceLast5 (s : String) : String :=
  ⟨s.data.drop (s.data.length - 5)⟩

/-- Line 45: `.str.match(r"^\d{5}$")` — the whole string is exactly five
digits.  (`\d` is modelled as ASCII digits; the address data is ASCII.) -/
def zip_regex_match (s : String) : Bool :=
  s.data.length == 5 && s.data.all Char.isDigit

/-- One row of the prepared table `df` returned by
`load_and_prepare_data` (lines 30–47): the merged columns plus the
derived `RECORD STATUS DATE` (now a parsed date), `Year` and `ZipCode`. -/
structure PreparedPermit where
  recordStatus : Option String
  recordStatusDate : Option DateMDY
  recordType : Option String
  addrFullLine : Option String
  description : Option String
  finalStatus : Option String
  simpleType : Option String
  year : Option Int       -- column "Year" (line 41); NaN when the date is NaT
  zipCode : String        -- column "ZipCode" (line 44); never NaN
  deriving DecidableEq, Repr

/-- Lines 40–44 applied to one merged row: overwrite `RECORD STATUS DATE`
with the coerced parse, derive `Year` and `ZipCode`. -/
def prepareRow (m : MergedPermit) : PreparedPermit :=
  let dt := to_datetime_coerce m.recordStatusDate
  { recordStatus := m.recordStatus
    recordStatusDate := dt
    recordType := m.recordType
    addrFullLine := m.addrFullLine
    description := m.description
    finalStatus := m.finalStatus
    simpleType := m.simpleType
    year := dt.map fun d => (d.year : Int)
    zipCode := strSliceLast5 (pyStr m.addrFullLine) }

/-- Lines 30–47, `load_and_prepare_data` (minus the file reads): merge the
three tables, derive `Year` and `ZipCode`, then keep only rows whose
`ZipCode` is five digits and not `"00000"` (line 45). -/
def load_and_prepare_data (records : List RawPermit) (status : List StatusRow)
    (types : List TypeRow) : List PreparedPermit :=
  let df1 := merge_status records status
  let df2 := merge_types df1 types
  let df3 := df2.map prepareRow
  df3.filter fun p => zip_regex_match p.zipCode && p.zipCode != "00000"

/-- Line 53: `sorted([int(y) for y in df["Year"].dropna().unique() if
int(y) != 2042], reverse=True)` — distinct non-null years, `2042`
removed, sorted descending. -/
def available_years (df : List PreparedPermit) : List Int :=
  List.insertionSort (fun a b : Int => a ≥ b)
    (((df.filterMap fun p => p.year).dedup).filter fun y => y ≠ 2042)

/-- Line 54: `st.selectbox` starts on the first option of the list. -/
def default_year (df : List PreparedPermit) : Option Int :=
  (available_years df).head?

/-- Line 55: `df[df["Year"] == selected_year]`.  A `NaN` year compares
unequal to every number, so such rows are excluded. -/
def df_filtered (df : List PreparedPermit) (selectedYear : Int) :
    List PreparedPermit :=
  df.filter fun p => p.year == some selectedYear

/-- Embedding of `groupby(keys).size().reset_index(name="Count")` over an already
projected key list: one output row per distinct key with its multiplicity.
(Rows whose key was `NaN` are dropped before this projection, matching
the pandas groupby default of dropping null keys.) -/
def groupByCount {K : Type} [DecidableEq K] (ks : List K) : List (K × Nat) :=
  ks.dedup.map fun k => (k, ks.count k)

/-- Lines 105–109: group `df_filtered` by `(ZipCode, FinalStatus)` and
count; rows with `NaN` `FinalStatus` are dropped by `groupby`. -/
def combo_counts (dff : List PreparedPermit) : List ((String × String) × Nat) :=
  groupByCount (dff.filterMap fun p => p.finalStatus.map fun fs => (p.zipCode, fs))

/-- Lines 131–135: group `df_filtered` by `ZipCode` alone and count;
`ZipCode` is never `NaN`, so no row is dropped. -/
def zip_treemap_data (dff : List PreparedPermit) : List (String × Nat) :=
  groupByCount (dff.map fun p => p.zipCode)

/-- Lines 147–151: group `df_filtered` by `(SimpleType, FinalStatus)` and
count; a `NaN` in either key drops the row. -/
def type_combo_counts (dff : List PreparedPermit) :
    List ((String × String) × Nat) :=
  groupByCount (dff.filterMap fun p =>
    match p.simpleType, p.finalStatus with
    | some t, some fs => some (t, fs)
    | _, _ => none)

/-- Python `str.lower()` restricted to ASCII (the keyword matching below
only needs ASCII case-folding). -/
def py_lower (s : String) : String :=
  ⟨s.data.map Char.toLower⟩

/-- Line 174: the derived column `Description_lower =
df_filtered["DESCRIPTION"].astype(str).str.lower()`. -/
def description_lower (p : PreparedPermit) : String :=
  py_lower (pyStr p.description)

/-- Substring containment: `pat` occurs contiguously somewhere in `s`.
This is `pandas.Series.str.contains` for the patterns used here, which
hold no regex metacharacters, so regex search and plain substring
containment coincide. -/
def str_contains (s pat : String) : Bool :=
  s.data.tails.any fun t => pat.data.isPrefixOf t

/-- Lines 176–181: the fixed KPI label → keyword mapping, in source order. -/
def kpi_keywords : List (String × String) :=
  [("Potential for Portable Toilet Sales", "bathroom"),
   ("Potential for Dumpster Sales", "demolition"),
   ("Potential for Commercial Flooring Sales", "flooring"),
   ("Potential for Fencing Sales", "fence")]

/-- Line 186: `df_filtered["Description_lower"].str.contains(keyword).sum()`
— the number of rows of the filtered table whose lowercased description
contains the keyword. -/
def kpi_count (dff : List PreparedPermit) (keyword : String) : Nat :=
  ((dff.map description_lower).filter fun d => str_contains d keyword).length

/-- The `"now"` sub-record of the weather result (lines 79–83). -/
structure WeatherNow where
  temp_f : ℚ
  wind_mph : ℚ
  precip_in : ℚ
  deriving DecidableEq, Repr

/-- The `"24h"` sub-record of the weather result (lines 84–88). -/
structure Weather24h where
  temp_f : ℚ
  wind_mph : ℚ
  precip_prob : ℚ
  deriving DecidableEq, Repr

/-- The dictionary returned by `get_weather`. -/
structure WeatherSnapshot where
  now : WeatherNow
  h24 : Weather24h
  deriving DecidableEq, Repr

/-- Lines 78–89 of `get_weather`: the unit conversions applied to the
values extracted from the API response — the three `current` readings and
the three hourly readings at the +24h index.  (The HTTP call and the
index lookup are I/O and are outside this embedding; numbers are modelled
as exact rationals, with the decimal literals of the source denoting the
rationals they spell.) -/
def get_weather (currentTemp currentWind currentPrecip : ℚ)
    (hourlyTemp hourlyWind hourlyPrecipProb : ℚ) : WeatherSnapshot :=
  { now :=
      { temp_f := currentTemp * 9 / 5 + 32
        wind_mph := currentWind * 0.621371
        precip_in := currentPrecip * 0.0393701 }
    h24 :=
      { temp_f := hourlyTemp * 9 / 5 + 32
        wind_mph := hourlyWind * 0.621371
        precip_prob := hourlyPrecipProb } }

/-- The four aggregation outputs plus the KPI counts (lines 105–187). -/
structure DashboardOutputs where
  combo : List ((String × String) × Nat)
  zipTreemap : List (String × Nat)
  typeCombo : List ((String × String) × Nat)
  kpis : List (String × Nat)
  deriving DecidableEq, Repr

/-- Lines 55–187 as one pass: everything the process computes downstream
of the prepared table, together with the prepared table as it stands when
the script ends.  The boolean-mask indexing of line 55 materialises
`df_filtered` as a copy, so the column assignment of line 174
(`df_filtered["Description_lower"] = …`) writes to that copy and never to
`df`; the aggregations only read.  The second component is therefore the
untouched `df`. -/
def run_dashboard (df : List PreparedPermit) (selectedYear : Int) :
    DashboardOutputs × List PreparedPermit :=
  let dff := df_filtered df selectedYear
  let combo := combo_counts dff
  let ztd := zip_treemap_data dff
  let tcc := type_combo_counts dff
  let kpis := kpi_keywords.map fun lk => (lk.1, kpi_count dff lk.2)
  (⟨combo, ztd, tcc, kpis⟩, df)

/-! ### Concrete sample data (used by the scenario parts and witnesses) -/

/-- A well-formed 2023 residential permit whose description contains
`BATHROOM` in upper case. -/
def rowBath : RawPermit :=
  ⟨some ("OPEN"), some ("01/15/2023"), some ("RES"),
   some ("1 Pine St, Atlanta, GA 30301"), some ("Install new BATHROOM")⟩

/-- The dropped-row scenario of the spec: the address ends in `00000`. -/
def rowZip00000 : RawPermit :=
  ⟨some ("OPEN"), some ("02/01/2023"), some ("RES"),
   some ("123 Main St, Atlanta, GA 00000"), some ("demo")⟩

/-- The bad-date scenario of the spec: `13/45/2020` does not parse; the status
and type codes have no lookup match and the description is missing. -/
def rowBadDate : RawPermit :=
  ⟨some ("XX"), some ("13/45/2020"), none,
   some ("2 Oak St, Atlanta, GA 30302"), none⟩

/-- A permit dated in the sentinel year 2042. -/
def rowYear2042 : RawPermit :=
  ⟨some ("OPEN"), some ("06/01/2042"), some ("ZZZ"),
   some ("3 Elm St, Atlanta, GA 30303"), some ("fence work")⟩

/-- A 2023 permit whose status and type codes have no lookup match. -/
def rowNoLookup2023 : RawPermit :=
  ⟨some ("YY"), some ("03/10/2023"), some ("QQQ"),
   some ("4 Ash St, Atlanta, GA 30304"), some ("new flooring")⟩

/-- Sample status lookup. -/
def sampleStatus : List StatusRow := [⟨some ("OPEN"), some ("Approved")⟩]

/-- Sample record-type lookup. -/
def sampleTypes : List TypeRow := [⟨some ("RES"), some ("Residential")⟩]

/-- Sample raw permits table. -/
def sampleRecords : List RawPermit :=
  [rowBath, rowZip00000, rowBadDate, rowYear2042, rowNoLookup2023]

/-- The prepared table of the sample data. -/
def sampleDF : List PreparedPermit :=
  load_and_prepare_data sampleRecords sampleStatus sampleTypes

/-- The prepared row arising from `rowBath`. -/
def prepBath : PreparedPermit :=
  ⟨some ("OPEN"), some ⟨1, 15, 2023⟩, some ("RES"),
   some ("1 Pine St, Atlanta, GA 30301"), some ("Install new BATHROOM"),
   some ("Approved"), some ("Residential"), some 2023, ("30301")⟩

/-- The prepared row arising from `rowBadDate`. -/
def prepBadDate : PreparedPermit :=
  ⟨some ("XX"), none, none, some ("2 Oak St, Atlanta, GA 30302"), none,
   none, none, none, ("30302")⟩

/-! ### General lemmas about the embedded pandas primitives -/

/-- The group sizes of a `groupby(…).size()` sum to the number of grouped
rows. -/
theorem sum_groupByCount {K : Type} [DecidableEq K] (ks : List K) :
    ((groupByCount ks).map Prod.snd).sum = ks.length := by
  unfold groupByCount
  rw [List.map_map]
  exact List.sum_map_count_dedup_eq_length ks

/-- A `filterMap` keeps exactly the rows on which `f` yields a value. -/
theorem length_filterMap_eq_length_filter {α β : Type} (f : α → Option β)
    (l : List α) :
    (l.filterMap f).length = (l.filter fun a => (f a).isSome).length := by
  induction l with
  | nil => rfl
  | cons a t ih =>
    cases h : f a <;>
      simp [List.filterMap_cons, List.filter_cons, h, ih]

/-! ### C5 — zip-only aggregation is a partition of the filtered rows -/

/-- C5: for every selectable year `Y`, summing `Count` over all rows of
the zip-only aggregation (`df_filtered.groupby("ZipCode").size()`)
equals the total row count of the year-filtered table: `ZipCode` is
never null, so no row is lost to the grouping. -/
theorem zip_treemap_counts_total (df : List PreparedPermit) (y : Int)
    (hy : y ∈ available_years df) :
    ((zip_treemap_data (df_filtered df y)).map Prod.snd).sum
      = (df_filtered df y).length := by
  unfold zip_treemap_data
  rw [sum_groupByCount, List.length_map]

/-- Concrete instance of `zip_treemap_counts_total` at the sample data
and its selectable year 2023. -/
theorem zip_treemap_counts_total_witness :
    (2023 : Int) ∈ available_years sampleDF ∧
    ((zip_treemap_data (df_filtered sampleDF 2023)).map Prod.snd).sum
      = (df_filtered sampleDF 2023).length :=
  ⟨by decide, zip_treemap_counts_total sampleDF 2023 (by decide)⟩

/-! ### C7 — the prepared table is never mutated downstream -/

/-- C7: running the whole downstream dashboard pass (year filter, the
three aggregations, the KPI counter — including the column
assignment of line 174, which lands on the filtered copy produced by boolean-mask
indexing) returns the prepared table unchanged. -/
theorem prepared_table_not_mutated (df : List PreparedPermit) (y : Int) :
    (run_dashboard df y).2 = df := rfl

/-! ### C8 — weather unit conversions -/

/-- C8: `get_weather` converts temperature by `°F = °C × 9/5 + 32` and
wind speed by `× 0.621371` for both the `now` and the `+24h` records,
converts the current precipitation by `× 0.0393701`, passes the +24h
precipitation probability through unscaled, and maps a current
temperature of 20 °C to exactly 68 °F. -/
theorem get_weather_unit_conversions (ct cw cp ht hw hp : ℚ) :
    (get_weather ct cw cp ht hw hp).now.temp_f = ct * 9 / 5 + 32 ∧
    (get_weather ct cw cp ht hw hp).now.wind_mph = cw * (621371 / 1000000) ∧
    (get_weather ct cw cp ht hw hp).now.precip_in = cp * (393701 / 10000000) ∧
    (get_weather ct cw cp ht hw hp).h24.temp_f = ht * 9 / 5 + 32 ∧
    (get_weather ct cw cp ht hw hp).h24.wind_mph = hw * (621371 / 1000000) ∧
    (get_weather ct cw cp ht hw hp).h24.precip_prob = hp ∧
    (get_weather 20 cw cp ht hw hp).now.temp_f = 68 := by
  refine ⟨rfl, ?_, ?_, rfl, ?_, rfl, ?_⟩ <;> norm_num [get_weather]

/-! ### C10 — the status-keyed aggregations drop null-keyed rows -/

/-- C10: in the `(ZipCode, FinalStatus)` and `(SimpleType, FinalStatus)`
aggregations, `groupby` drops every row with a null key, so the summed
counts equal the number of rows whose lookup keys are all non-null; on
the 2023 filtered set of the sample data (which holds a row with no lookup
match) the sum is strictly below the filtered row count. -/
theorem status_groupbys_drop_null_keys (dff : List PreparedPermit) :
    (((combo_counts dff).map Prod.snd).sum
        = (dff.filter fun p => p.finalStatus.isSome).length ∧
      ((type_combo_counts dff).map Prod.snd).sum
        = (dff.filter fun p => p.simpleType.isSome && p.finalStatus.isSome).length) ∧
    ((combo_counts (df_filtered sampleDF 2023)).map Prod.snd).sum
      < (df_filtered sampleDF 2023).length := by
  refine ⟨⟨?_, ?_⟩, by decide⟩
  · unfold combo_counts
    rw [sum_groupByCount, length_filterMap_eq_length_filter]
    refine congrArg List.length (List.filter_congr ?_)
    intro p _
    cases p.finalStatus <;> rfl
  · unfold type_combo_counts
    rw [sum_groupByCount, length_filterMap_eq_length_filter]
    refine congrArg List.length (List.filter_congr ?_)
    intro p _
    cases p.simpleType <;> cases p.finalStatus <;> rfl

/-! ### C1 — the zip filter invariant -/

/-- C1: every row of the prepared table has a `ZipCode` of exactly five
ASCII digits that is not `"00000"`, and that `ZipCode` is the trailing
five characters of the address of the row; consequently an input row whose
trailing-five-character zip fails the test contributes no row at all to
the prepared table (no prepared row carries its address). -/
theorem prepared_zipcodes_valid (records : List RawPermit)
    (status : List StatusRow) (types : List TypeRow) :
    (∀ p ∈ load_and_prepare_data records status types,
        p.zipCode.data.length = 5 ∧ p.zipCode.data.all Char.isDigit = true ∧
        p.zipCode ≠ ("00000") ∧
        p.zipCode = strSliceLast5 (pyStr p.addrFullLine)) ∧
    (∀ r ∈ records,
        ¬(zip_regex_match (strSliceLast5 (pyStr r.addrFullLine)) = true ∧
            strSliceLast5 (pyStr r.addrFullLine) ≠ ("00000")) →
        ∀ p ∈ load_and_prepare_data records status types,
          p.addrFullLine ≠ r.addrFullLine) := by
  have hmain : ∀ p ∈ load_and_prepare_data records status types,
      zip_regex_match p.zipCode = true ∧ p.zipCode ≠ ("00000") ∧
      p.zipCode = strSliceLast5 (pyStr p.addrFullLine) := by
    intro p hp
    unfold load_and_prepare_data at hp
    simp only [List.mem_filter, List.mem_map, Bool.and_eq_true,
      bne_iff_ne, ne_eq] at hp
    obtain ⟨⟨m, _, hm⟩, hzip, hne⟩ := hp
    refine ⟨hzip, hne, ?_⟩
    rw [← hm]
    rfl
  constructor
  · intro p hp
    obtain ⟨hzip, hne, haddr⟩ := hmain p hp
    unfold zip_regex_match at hzip
    rw [Bool.and_eq_true] at hzip
    exact ⟨by simpa using hzip.1, hzip.2, hne, haddr⟩
  · intro r _ hbad p hp heq
    obtain ⟨hzip, hne, haddr⟩ := hmain p hp
    rw [heq] at haddr
    exact hbad ⟨haddr ▸ hzip, haddr ▸ hne⟩

/-- Concrete instance of `prepared_zipcodes_valid`: the scenario
row of the spec whose address ends in `GA 00000` is dropped — in particular the
surviving sample row does not carry that address. -/
theorem prepared_zipcodes_valid_witness :
    prepBath.addrFullLine ≠ rowZip00000.addrFullLine :=
  (prepared_zipcodes_valid sampleRecords sampleStatus sampleTypes).2
    rowZip00000 (by decide) (by decide) prepBath (by decide)

/-! ### C3 — unparsable dates: null Year, no error, still counted -/

/-- C3: the scenario string `"13/45/2020"` fails the `%m/%d/%Y` parse and
coerces to `NaT` (no error: the parse is a total function into
`Option`); the `Year` of a prepared row is null exactly when its date cell
coerced to `NaT`; and a prepared row with null `Year` is excluded from
the year-filtered set for every selected year while remaining a row of
the prepared table (so it still counts toward its total row count). -/
theorem bad_date_rows_have_null_year (records : List RawPermit)
    (status : List StatusRow) (types : List TypeRow) (y : Int)
    (p : PreparedPermit)
    (hp : p ∈ load_and_prepare_data records status types)
    (hy : p.year = none) :
    to_datetime_coerce (some ("13/45/2020")) = none ∧
    (∀ m : MergedPermit,
      ((prepareRow m).year = none ↔ to_datetime_coerce m.recordStatusDate = none)) ∧
    p ∉ df_filtered (load_and_prepare_data records status types) y ∧
    p ∈ load_and_prepare_data records status types := by
  refine ⟨by decide, ?_, ?_, hp⟩
  · intro m
    cases h : to_datetime_coerce m.recordStatusDate <;>
      simp [prepareRow, h]
  · intro hmem
    unfold df_filtered at hmem
    rw [List.mem_filter, hy] at hmem
    simpa using hmem.2

/-- Concrete instance of `bad_date_rows_have_null_year`: the sample row
with date `13/45/2020` is in the prepared table but not in the 2023
filtered set. -/
theorem bad_date_rows_have_null_year_witness :
    prepBadDate ∉ df_filtered sampleDF 2023 :=
  (bad_date_rows_have_null_year sampleRecords sampleStatus sampleTypes 2023
    prepBadDate (by decide) (by decide)).2.2.1

/-! ### C4 — the year selector -/

/-- C4: the selectable years are exactly the distinct non-null `Year`
values of the prepared table with the literal 2042 removed, sorted
descending; the initial value of the selector (the head of the option list)
is the largest such year; `2042` is never selectable, yet a row dated
2042 stays in the prepared table — filtering the table by year 2042
still finds it. -/
theorem year_selector_spec (df : List PreparedPermit) :
    (∀ y : Int, y ∈ available_years df ↔
        ((∃ p ∈ df, p.year = some y) ∧ y ≠ 2042)) ∧
    List.Sorted (fun a b : Int => a ≥ b) (available_years df) ∧
    (∀ m y : Int, default_year df = some m → y ∈ available_years df → y ≤ m) ∧
    ((2042 : Int) ∉ available_years df) ∧
    (∀ p ∈ df, p.year = some 2042 → p ∈ df_filtered df 2042) := by
  have hsorted : List.Sorted (fun a b : Int => a ≥ b) (available_years df) :=
    List.sorted_insertionSort _ _
  have hmem : ∀ y : Int, y ∈ available_years df ↔
      ((∃ p ∈ df, p.year = some y) ∧ y ≠ 2042) := by
    intro y
    simp [available_years, List.mem_insertionSort]
  refine ⟨hmem, hsorted, ?_, ?_, ?_⟩
  · intro m y hm hy
    cases hav : available_years df with
    | nil =>
      rw [hav] at hy
      cases hy
    | cons a t =>
      have hma : m = a := by
        unfold default_year at hm
        rw [hav] at hm
        exact (Option.some_inj.mp hm).symm
      rw [hav] at hy hsorted
      rcases List.mem_cons.mp hy with h | h
      · exact le_of_eq (h.trans hma.symm)
      · exact hma ▸ List.rel_of_sorted_cons hsorted y h
  · rw [hmem]
    rintro ⟨-, hne⟩
    exact hne rfl
  · intro p hp h2042
    unfold df_filtered
    rw [List.mem_filter]
    exact ⟨hp, by rw [h2042]; rfl⟩

/-- Concrete instance of `year_selector_spec` at the sample data: 2042
is not selectable there. -/
theorem year_selector_spec_witness :
    (2042 : Int) ∉ available_years sampleDF :=
  (year_selector_spec sampleDF).2.2.2.1

/-! ### C6 — keyword KPIs are case-insensitive substring counts -/

/-- C6: for each fixed (label, keyword) pair of `kpi_keywords`, the KPI
count is the number of filtered rows whose description, coerced to text
and case-folded to lowercase, contains the keyword as a plain substring
— no word-boundary requirement; in particular an upper-case `BATHROOMS`
inside a description still matches the keyword `"bathroom"`. -/
theorem kpi_substring_semantics (dff : List PreparedPermit)
    (label keyword : String) (hk : (label, keyword) ∈ kpi_keywords) :
    kpi_count dff keyword
      = (dff.filter fun p =>
          str_contains (py_lower (pyStr p.description)) keyword).length ∧
    (∀ p : PreparedPermit, p.description = some ("Re-tile BATHROOMS") →
        str_contains (py_lower (pyStr p.description)) ("bathroom") = true) := by
  constructor
  · unfold kpi_count
    rw [List.filter_map, List.length_map]
    rfl
  · intro p hd
    rw [hd]
    decide

/-- Concrete instance of `kpi_substring_semantics` at the 2023 filtered
set of the sample data and the `"bathroom"` keyword. -/
theorem kpi_substring_semantics_witness :
    kpi_count (df_filtered sampleDF 2023) ("bathroom")
      = ((df_filtered sampleDF 2023).filter fun p =>
          str_contains (py_lower (pyStr p.description)) ("bathroom")).length :=
  (kpi_substring_semantics (df_filtered sampleDF 2023)
    ("Potential for Portable Toilet Sales") ("bathroom") (by decide)).1

/-! ### C9 — missing descriptions never contribute to a KPI -/

/-- Unfolding one row of a KPI count. -/
theorem kpi_count_cons (p : PreparedPermit) (t : List PreparedPermit)
    (keyword : String) :
    kpi_count (p :: t) keyword
      = (if str_contains (description_lower p) keyword then 1 else 0)
        + kpi_count t keyword := by
  by_cases h : str_contains (description_lower p) keyword = true <;>
    simp [kpi_count, List.filter_cons, h, Nat.add_comm]

/-- Dropping the rows with a missing description does not change a KPI
count whose keyword does not occur in the text `"nan"`. -/
theorem kpi_count_ignores_missing (keyword : String)
    (hnan : str_contains ("nan") keyword = false) (dff : List PreparedPermit) :
    kpi_count dff keyword
      = kpi_count (dff.filter fun p => p.description.isSome) keyword := by
  induction dff with
  | nil => rfl
  | cons p t ih =>
    cases hd : p.description with
    | none =>
      have hlow : description_lower p = ("nan") := by
        simp only [description_lower, hd]
        decide
      have hstep : (p :: t).filter (fun q => q.description.isSome)
          = t.filter fun q => q.description.isSome := by
        simp [List.filter_cons, hd]
      rw [hstep, ← ih, kpi_count_cons, hlow, hnan]
      simp
    | some d =>
      have hstep : (p :: t).filter (fun q => q.description.isSome)
          = p :: t.filter fun q => q.description.isSome := by
        simp [List.filter_cons, hd]
      rw [hstep, kpi_count_cons, ih, kpi_count_cons]

/-- C9: a missing `DESCRIPTION` is coerced by `astype(str)` to the
lowercase text `"nan"`, no fixed KPI keyword occurs in `"nan"`, and
therefore rows with a missing description never contribute to any KPI
count: removing them leaves every KPI count unchanged. -/
theorem missing_description_never_matches (dff : List PreparedPermit)
    (label keyword : String) (hk : (label, keyword) ∈ kpi_keywords) :
    py_lower (pyStr none) = ("nan") ∧
    str_contains ("nan") keyword = false ∧
    kpi_count dff keyword
      = kpi_count (dff.filter fun p => p.description.isSome) keyword := by
  have hnan : str_contains ("nan") keyword = false := by
    simp [kpi_keywords, Prod.ext_iff] at hk
    rcases hk with ⟨-, h⟩ | ⟨-, h⟩ | ⟨-, h⟩ | ⟨-, h⟩ <;> subst h <;> decide
  exact ⟨rfl, hnan, kpi_count_ignores_missing keyword hnan dff⟩

/-- Concrete instance of `missing_description_never_matches`: the sample
table holds a row with a missing description, and removing such rows
does not change the `"bathroom"` KPI count. -/
theorem missing_description_never_matches_witness :
    kpi_count sampleDF ("bathroom")
      = kpi_count (sampleDF.filter fun p => p.description.isSome) ("bathroom") :=
  (missing_description_never_matches sampleDF
    ("Potential for Portable Toilet Sales") ("bathroom") (by decide)).2.2

/-! ### C2 — the merges are left joins: no permit row is dropped -/

/-- Every left row survives the first merge with its permit fields
intact; when its status code matches no lookup row, `FinalStatus` is
null. -/
theorem merge_status_left_total (records : List RawPermit)
    (status : List StatusRow) (r : RawPermit) (hr : r ∈ records) :
    ∃ m ∈ merge_status records status,
      m.recordStatus = r.recordStatus ∧
      m.recordStatusDate = r.recordStatusDate ∧
      m.recordType = r.recordType ∧
      m.addrFullLine = r.addrFullLine ∧
      m.description = r.description ∧
      ((∀ s ∈ status, s.status ≠ r.recordStatus) → m.finalStatus = none) := by
  by_cases h : (status.filter fun s => s.status == r.recordStatus).isEmpty = true
  · refine ⟨⟨r.recordStatus, r.recordStatusDate, r.recordType,
      r.addrFullLine, r.description, none⟩, ?_, rfl, rfl, rfl, rfl, rfl,
      fun _ => rfl⟩
    rw [merge_status, List.mem_flatMap]
    refine ⟨r, hr, ?_⟩
    simp [h]
  · have hne : (status.filter fun s => s.status == r.recordStatus) ≠ [] := by
      intro hnil
      rw [hnil] at h
      exact h rfl
    obtain ⟨s, hs⟩ := List.exists_mem_of_ne_nil _ hne
    have hsf := List.mem_filter.mp hs
    refine ⟨⟨r.recordStatus, r.recordStatusDate, r.recordType,
      r.addrFullLine, r.description, s.finalStatus⟩, ?_, rfl, rfl, rfl, rfl,
      rfl, ?_⟩
    · rw [merge_status, List.mem_flatMap]
      refine ⟨r, hr, ?_⟩
      simp only [h, if_false, Bool.false_eq_true]
      exact List.mem_map_of_mem _ hs
    · intro hnone
      exact absurd (by simpa using hsf.2) (hnone s hsf.1)

/-- Every row survives the second merge with its fields intact; when its
type code matches no lookup row, `SimpleType` is null. -/
theorem merge_types_left_total (df : List MergedStatus)
    (types : List TypeRow) (m1 : MergedStatus) (hm : m1 ∈ df) :
    ∃ m ∈ merge_types df types,
      m.recordStatus = m1.recordStatus ∧
      m.recordStatusDate = m1.recordStatusDate ∧
      m.recordType = m1.recordType ∧
      m.addrFullLine = m1.addrFullLine ∧
      m.description = m1.description ∧
      m.finalStatus = m1.finalStatus ∧
      ((∀ t ∈ types, t.recordType ≠ m1.recordType) → m.simpleType = none) := by
  by_cases h : (types.filter fun t => t.recordType == m1.recordType).isEmpty = true
  · refine ⟨⟨m1.recordStatus, m1.recordStatusDate, m1.recordType,
      m1.addrFullLine, m1.description, m1.finalStatus, none⟩, ?_, rfl, rfl,
      rfl, rfl, rfl, rfl, fun _ => rfl⟩
    rw [merge_types, List.mem_flatMap]
    refine ⟨m1, hm, ?_⟩
    simp [h]
  · have hne : (types.filter fun t => t.recordType == m1.recordType) ≠ [] := by
      intro hnil
      rw [hnil] at h
      exact h rfl
    obtain ⟨t, ht⟩ := List.exists_mem_of_ne_nil _ hne
    have htf := List.mem_filter.mp ht
    refine ⟨⟨m1.recordStatus, m1.recordStatusDate, m1.recordType,
      m1.addrFullLine, m1.description, m1.finalStatus, t.simpleType⟩, ?_,
      rfl, rfl, rfl, rfl, rfl, rfl, ?_⟩
    · rw [merge_types, List.mem_flatMap]
      refine ⟨m1, hm, ?_⟩
      simp only [h, if_false, Bool.false_eq_true]
      exact List.mem_map_of_mem _ ht
    · intro hnone
      exact absurd (by simpa using htf.2) (hnone t htf.1)

/-- A `flatMap` whose pieces are all non-empty yields at least one output
row per input row. -/
theorem length_le_length_flatMap {α β : Type} (l : List α) (f : α → List β)
    (h : ∀ a ∈ l, f a ≠ []) : l.length ≤ (l.flatMap f).length := by
  induction l with
  | nil => simp
  | cons a t ih =>
    rw [List.flatMap_cons, List.length_append, List.length_cons]
    have h1 : 1 ≤ (f a).length :=
      List.length_pos.mpr (h a (List.mem_cons_self a t))
    have h2 := ih fun x hx => h x (List.mem_cons_of_mem a hx)
    omega

/-- The per-row piece of the first merge is never empty. -/
theorem merge_status_piece_ne_nil (status : List StatusRow) (r : RawPermit) :
    ((fun r : RawPermit =>
      let ms := status.filter fun s => s.status == r.recordStatus
      if ms.isEmpty then
        ([⟨r.recordStatus, r.recordStatusDate, r.recordType, r.addrFullLine,
          r.description, none⟩] : List MergedStatus)
      else
        ms.map fun s =>
          ⟨r.recordStatus, r.recordStatusDate, r.recordType, r.addrFullLine,
           r.description, s.finalStatus⟩) r) ≠ [] := by
  by_cases h : (status.filter fun s => s.status == r.recordStatus).isEmpty = true
  · simp [h]
  · simp only [h, if_false, Bool.false_eq_true, ne_eq, List.map_eq_nil_iff]
    intro hnil
    rw [hnil] at h
    exact h rfl

/-- The per-row piece of the second merge is never empty. -/
theorem merge_types_piece_ne_nil (types : List TypeRow) (m : MergedStatus) :
    ((fun m : MergedStatus =>
      let ms := types.filter fun t => t.recordType == m.recordType
      if ms.isEmpty then
        ([⟨m.recordStatus, m.recordStatusDate, m.recordType, m.addrFullLine,
          m.description, m.finalStatus, none⟩] : List MergedPermit)
      else
        ms.map fun t =>
          ⟨m.recordStatus, m.recordStatusDate, m.recordType, m.addrFullLine,
           m.description, m.finalStatus, t.simpleType⟩) m) ≠ [] := by
  by_cases h : (types.filter fun t => t.recordType == m.recordType).isEmpty = true
  · simp [h]
  · simp only [h, if_false, Bool.false_eq_true, ne_eq, List.map_eq_nil_iff]
    intro hnil
    rw [hnil] at h
    exact h rfl

/-- C2: the two merges are left joins — every permit row is still
present in the joined result with its fields intact, with `FinalStatus`
null when its `RECORD STATUS` has no `StatusLookup` match and
`SimpleType` null when its `RECORD TYPE` has no `TypeLookup` match; and
neither join can shrink the table. -/
theorem left_joins_preserve_rows (records : List RawPermit)
    (status : List StatusRow) (types : List TypeRow) (r : RawPermit)
    (hr : r ∈ records) :
    (∃ m ∈ merge_types (merge_status records status) types,
      m.recordStatus = r.recordStatus ∧
      m.recordStatusDate = r.recordStatusDate ∧
      m.recordType = r.recordType ∧
      m.addrFullLine = r.addrFullLine ∧
      m.description = r.description ∧
      ((∀ s ∈ status, s.status ≠ r.recordStatus) → m.finalStatus = none) ∧
      ((∀ t ∈ types, t.recordType ≠ r.recordType) → m.simpleType = none)) ∧
    records.length ≤ (merge_types (merge_status records status) types).length := by
  constructor
  · obtain ⟨m1, hm1, h1, h2, h3, h4, h5, h6⟩ :=
      merge_status_left_total records status r hr
    obtain ⟨m, hm, g1, g2, g3, g4, g5, g6, g7⟩ :=
      merge_types_left_total (merge_status records status) types m1 hm1
    refine ⟨m, hm, g1.trans h1, g2.trans h2, g3.trans h3, g4.trans h4,
      g5.trans h5, ?_, ?_⟩
    · intro hnone
      rw [g6]
      exact h6 hnone
    · intro hnone
      refine g7 ?_
      intro t ht
      rw [h3]
      exact hnone t ht
  · calc records.length
        ≤ (merge_status records status).length := by
          rw [merge_status]
          exact length_le_length_flatMap _ _
            fun a _ => merge_status_piece_ne_nil status a
      _ ≤ (merge_types (merge_status records status) types).length := by
          rw [merge_types]
          exact length_le_length_flatMap _ _
            fun a _ => merge_types_piece_ne_nil types a

/-- Concrete instance of `left_joins_preserve_rows`: the sample row whose
status code `XX` and missing type code match nothing still appears after
both merges, with null lookup fields. -/
theorem left_joins_preserve_rows_witness :
    (∃ m ∈ merge_types (merge_status sampleRecords sampleStatus) sampleTypes,
      m.recordStatus = rowBadDate.recordStatus ∧
      m.recordStatusDate = rowBadDate.recordStatusDate ∧
      m.recordType = rowBadDate.recordType ∧
      m.addrFullLine = rowBadDate.addrFullLine ∧
      m.description = rowBadDate.description ∧
      ((∀ s ∈ sampleStatus, s.status ≠ rowBadDate.recordStatus) →
        m.finalStatus = none) ∧
      ((∀ t ∈ sampleTypes, t.recordType ≠ rowBadDate.recordType) →
        m.simpleType = none)) ∧
    sampleRecords.length
      ≤ (merge_types (merge_status sampleRecords sampleStatus) sampleTypes).length :=
  left_joins_preserve_rows sampleRecords sampleStatus sampleTypes rowBadDate
    (by decide)
